import Mathlib

/-!
Verification of the auto-curtain firmware sketches.

The repository holds four near-identical Arduino/ESP-Matter sketches:

* `auto-curtain/src/main.cpp` — single OnOff light endpoint, one LED
  (`LED_PIN = D0`), one active-low toggle button (`TOGGLE_BUTTON_PIN = D9`),
  a 500 ms debounce gate, an attribute-update callback that drives the LED,
  and a polling `loop` that reads, inverts and commits the OnOff attribute.
* `sandbox/.../TwoEndpointsPluginUnit.cpp` — two OnOff plugin-unit
  endpoints (LEDs `D0`/`D1`, buttons `D9`/`D8`) sharing a single
  `last_toggle` debounce timestamp.
* `unnamed/part_000` — a WindowCovering ("curtain") endpoint variant whose
  matched callback branch only prints (its `digitalWrite` is commented out)
  and whose setter commits through the OnOff cluster/attribute ids.
* `unnamed/part_001` — textually the same light sketch as `main.cpp`
  (plus provisioning experiments that do not touch the core logic).

The development below embeds the loop, the callback and the attribute
get/set helpers of each variant as pure Lean functions over explicit state,
and proves the spec's claims about them.  Machine arithmetic: `millis()`
returns `unsigned long` (32 bits on ESP32); `last_toggle` is an `int` that
only ever holds values of `millis()`, and the C expression
`millis() - last_toggle` is computed modulo 2^32, which `millisSub` models
exactly.  GPIO writes (`digitalWrite`) are modeled as an explicit list of
(pin, level) events emitted by a call; `Serial` prints are not modeled.
-/

/-- 2^32, the modulus of `unsigned long` arithmetic on the target (ESP32). -/
def UINT32_MOD : Nat := 4294967296

/-- `const int DEBOUNCE_DELAY = 500;` — shared by all variants. -/
def DEBOUNCE_DELAY : Nat := 500

/-- `ESP_OK`, the esp-idf success code (0), returned by every callback. -/
def ESP_OK : Nat := 0

/-- `const uint32_t CLUSTER_ID = OnOff::Id;` — the Matter OnOff cluster id
(0x0006 in the SDK headers the sketches include). -/
def CLUSTER_ID : Nat := 6

/-- `const uint32_t ATTRIBUTE_ID = OnOff::Attributes::OnOff::Id;` — the
OnOff attribute id (0x0000 in the SDK headers). -/
def ATTRIBUTE_ID : Nat := 0

/-- `const uint32_t CURTAIN_CLUSTER_ID = clusters::WindowCovering::Id;`
(0x0102 in the SDK headers), from `unnamed/part_000` line 31. -/
def CURTAIN_CLUSTER_ID : Nat := 258

/-- `const uint32_t CURTAIN_ATTRIBUTE_ID =
clusters::WindowCovering::Attributes::OperationalStatus::Id;` (0x000A in
the SDK headers), from `unnamed/part_000` line 32. -/
def CURTAIN_ATTRIBUTE_ID : Nat := 10

/-- The C expression `millis() - last_toggle`: `last_toggle` (an `int`
holding a previous `millis()` value) is converted to `unsigned long` and
subtracted modulo 2^32. -/
def millisSub (t last : Nat) : Nat :=
  (t + (UINT32_MOD - last % UINT32_MOD)) % UINT32_MOD

/-- When no wraparound occurred, `millisSub` is plain subtraction. -/
theorem millisSub_of_le {t last : Nat} (h1 : last ≤ t) (h2 : t < UINT32_MOD) :
    millisSub t last = t - last := by
  unfold millisSub UINT32_MOD
  unfold UINT32_MOD at h2
  omega

/-- `esp_matter::attribute::callback_type_t` — the update phases the
framework reports to `on_attribute_update`. -/
inductive CallbackType where
  | PRE_UPDATE
  | POST_UPDATE
  | READ
  | WRITE
deriving DecidableEq

/-- One `digitalWrite(pin, level)` call. -/
structure PinWrite where
  pin : Nat
  level : Bool
deriving DecidableEq

namespace Light

/-- `const int LED_PIN = D0;` (board pin 0). -/
def LED_PIN : Nat := 0

/-- `const int TOGGLE_BUTTON_PIN = D9;` (board pin 9). -/
def TOGGLE_BUTTON_PIN : Nat := 9

/-- The mutable state of the single-light sketch (`main.cpp`, and the
identical copy in `unnamed/part_001`): the framework-owned OnOff attribute
slot that `attribute_ref` resolves to, the LED output pin level, and the
global debounce timestamp `last_toggle`. -/
structure LightState where
  onoff : Bool
  led : Bool
  last_toggle : Nat
deriving DecidableEq

/-- State after `setup()`: the attribute is initialized to `false`
(`light_config.on_off.on_off = false`), the LED has not been driven, and
the file-scope `int last_toggle` is zero-initialized. -/
def boot : LightState := { onoff := false, led := false, last_toggle := 0 }

/-- `get_onoff_attribute_value()`: reads the attribute slot behind
`attribute_ref`. -/
def get_onoff_attribute_value (s : LightState) : Bool := s.onoff

/-- `set_onoff_attribute_value(&v)`: commits `v` through
`attribute::update(light_endpoint_id, CLUSTER_ID, ATTRIBUTE_ID, &v)`, whose
ids address exactly the slot behind `attribute_ref`. -/
def set_onoff_attribute_value (v : Bool) (s : LightState) : LightState :=
  { s with onoff := v }

/-- Lines 167–169 of `main.cpp`: read the current value, invert the
boolean, commit it. -/
def toggle (s : LightState) : LightState :=
  set_onoff_attribute_value (!get_onoff_attribute_value s) s

/-- One iteration of `loop()` (`main.cpp` lines 162–172), given the
`millis()` sample `t` and the level `button_level` that
`digitalRead(TOGGLE_BUTTON_PIN)` returns (the button is active-low).
The second component lists the `digitalWrite` calls the iteration makes:
the loop body contains none. -/
def loop (t : Nat) (button_level : Bool) (s : LightState) :
    LightState × List PinWrite :=
  if millisSub t s.last_toggle > DEBOUNCE_DELAY then
    if !button_level then
      (toggle { s with last_toggle := t }, [])
    else (s, [])
  else (s, [])

/-- Whether the iteration at time `t` with button level `b` fires the
read-invert-commit branch. -/
def fires (t : Nat) (button_level : Bool) (s : LightState) : Bool :=
  decide (millisSub t s.last_toggle > DEBOUNCE_DELAY) && !button_level

/-- `on_attribute_update` (`main.cpp` lines 79–88): on a `PRE_UPDATE` whose
(endpoint, cluster, attribute) triple matches the light's, drive the LED
pin to `val->val.b`; always return `ESP_OK`. -/
def on_attribute_update (light_endpoint_id : Nat) (type : CallbackType)
    (endpoint_id cluster_id attribute_id : Nat) (val_b : Bool) :
    Nat × List PinWrite :=
  if type = CallbackType.PRE_UPDATE ∧ endpoint_id = light_endpoint_id ∧
      cluster_id = CLUSTER_ID ∧ attribute_id = ATTRIBUTE_ID then
    (ESP_OK, [⟨LED_PIN, val_b⟩])
  else (ESP_OK, [])

/-- One step of the toggle counter: advance the state through `loop` and
add one when the iteration fired. -/
def countStep (p : LightState × Nat) (e : Nat × Bool) : LightState × Nat :=
  ((loop e.1 e.2 p.1).1, p.2 + (if fires e.1 e.2 p.1 then 1 else 0))

/-- Number of toggles (commits) the loop fires along a trace of
`(millis, button level)` samples. -/
def countToggles (tr : List (Nat × Bool)) (s : LightState) : Nat :=
  (tr.foldl countStep (s, 0)).2

/-- A poll every millisecond starting at `t0`, for `len` samples, with the
button held (low) for the first `D` milliseconds and released afterwards. -/
def densePolls (t0 D len : Nat) : List (Nat × Bool) :=
  (List.range len).map (fun i => (t0 + i, decide (D ≤ i)))

/-- The framework's remote-commit path landing a value `v` in the
attribute store (the commit performed for a remote controller's write). -/
def remote_commit (v : Bool) (s : LightState) : LightState :=
  { s with onoff := v }

/-- The racy interleaving of `loop`'s toggle with a remote commit: the
loop reads the current value (line 167), the framework then commits the
remote value `r`, and the loop finally commits the negation of the value
it read (lines 168–169). -/
def toggle_raced (r : Bool) (s : LightState) : LightState :=
  let v := get_onoff_attribute_value s
  set_onoff_attribute_value (!v) (remote_commit r s)

end Light

namespace TwoEnd

/-- `const int LED_PIN_1 = D0;` -/
def LED_PIN_1 : Nat := 0

/-- `const int LED_PIN_2 = D1;` -/
def LED_PIN_2 : Nat := 1

/-- `const int TOGGLE_BUTTON_PIN_1 = D9;` -/
def TOGGLE_BUTTON_PIN_1 : Nat := 9

/-- `const int TOGGLE_BUTTON_PIN_2 = D8;` -/
def TOGGLE_BUTTON_PIN_2 : Nat := 8

/-- State of `TwoEndpointsPluginUnit.cpp`: the two framework-owned OnOff
attribute slots (behind `attribute_ref_1` / `attribute_ref_2`), the two
LED levels, and the single process-wide `last_toggle` timestamp both
buttons share. -/
structure PluginState where
  onoff_1 : Bool
  onoff_2 : Bool
  led_1 : Bool
  led_2 : Bool
  last_toggle : Nat
deriving DecidableEq

/-- State after `setup()`: both attributes `false`, LEDs undriven,
`last_toggle` zero-initialized. -/
def boot : PluginState :=
  { onoff_1 := false, onoff_2 := false, led_1 := false, led_2 := false,
    last_toggle := 0 }

/-- The two cached attribute references `attribute_ref_1` and
`attribute_ref_2` (channel 1 is endpoint 1 / `LED_PIN_1` /
`TOGGLE_BUTTON_PIN_1`). -/
inductive AttrRef where
  | ref_1
  | ref_2
deriving DecidableEq

/-- `get_onoff_attribute_value(attribute_ref)`. -/
def get_onoff_attribute_value (r : AttrRef) (s : PluginState) : Bool :=
  match r with
  | .ref_1 => s.onoff_1
  | .ref_2 => s.onoff_2

/-- `set_onoff_attribute_value(&v, plugin_unit_endpoint_id_i)`: the
endpoint id selects which slot `attribute::update` commits to. -/
def set_onoff_attribute_value (v : Bool) (r : AttrRef) (s : PluginState) :
    PluginState :=
  match r with
  | .ref_1 => { s with onoff_1 := v }
  | .ref_2 => { s with onoff_2 := v }

/-- The read-invert-commit block for one channel (lines 176–178 and
184–186 of `TwoEndpointsPluginUnit.cpp`). -/
def toggle (r : AttrRef) (s : PluginState) : PluginState :=
  set_onoff_attribute_value (!get_onoff_attribute_value r s) r s

/-- One iteration of `loop()` (lines 171–189): a single debounce gate on
the shared `last_toggle`, then both button checks in order; each pressed
button records `last_toggle = millis()` and toggles its own attribute.
No `digitalWrite` occurs in the loop body. -/
def loop (t : Nat) (btn1 btn2 : Bool) (s : PluginState) :
    PluginState × List PinWrite :=
  if millisSub t s.last_toggle > DEBOUNCE_DELAY then
    let s1 := if !btn1 then toggle .ref_1 { s with last_toggle := t } else s
    let s2 := if !btn2 then toggle .ref_2 { s1 with last_toggle := t } else s1
    (s2, [])
  else (s, [])

/-- Whether the iteration fires channel 1's toggle: the debounce gate is
evaluated once, at loop entry, so it depends only on the entry state. -/
def fires1 (t : Nat) (btn1 : Bool) (s : PluginState) : Bool :=
  decide (millisSub t s.last_toggle > DEBOUNCE_DELAY) && !btn1

/-- Whether the iteration fires channel 2's toggle: the inner check at
line 181 is not re-gated on time, so channel 1 firing in the same poll
does not suppress it. -/
def fires2 (t : Nat) (btn2 : Bool) (s : PluginState) : Bool :=
  decide (millisSub t s.last_toggle > DEBOUNCE_DELAY) && !btn2

/-- `on_attribute_update` (lines 96–111): on a matching `PRE_UPDATE`,
drive the LED of whichever endpoint matched; always return `ESP_OK`. -/
def on_attribute_update (ep1 ep2 : Nat) (type : CallbackType)
    (endpoint_id cluster_id attribute_id : Nat) (val_b : Bool) :
    Nat × List PinWrite :=
  if type = CallbackType.PRE_UPDATE ∧ cluster_id = CLUSTER_ID ∧
      attribute_id = ATTRIBUTE_ID then
    if endpoint_id = ep1 then (ESP_OK, [⟨LED_PIN_1, val_b⟩])
    else if endpoint_id = ep2 then (ESP_OK, [⟨LED_PIN_2, val_b⟩])
    else (ESP_OK, [])
  else (ESP_OK, [])

/-- The toggle events fired along a trace of `(millis, btn1, btn2)`
samples: each event is `(time, channel)`. -/
def events : List (Nat × Bool × Bool) → PluginState → List (Nat × Nat)
  | [], _ => []
  | (t, b1, b2) :: tr, s =>
    ((if fires1 t b1 s then [(t, 1)] else []) ++
      (if fires2 t b2 s then [(t, 2)] else [])) ++
      events tr (loop t b1 b2 s).1

end TwoEnd

namespace Curtain

/-- `const int LED_PIN = D0;` (`unnamed/part_000` line 21). -/
def LED_PIN : Nat := 0

/-- A call to `em::attribute::update(endpoint_id, cluster_id,
attribute_id, &value)` — the (endpoint, cluster, attribute) triple and the
`u8` payload the curtain variant's setter submits to the framework. -/
structure UpdateRequest where
  endpoint_id : Nat
  cluster_id : Nat
  attribute_id : Nat
  val_u8 : Nat
deriving DecidableEq

/-- `set_curtain_attribute_value` (`unnamed/part_000` lines 193–195):
commits through `CLUSTER_ID` / `ATTRIBUTE_ID` — the OnOff ids (defined at
the commented-out lines 29–30 of the same file and verbatim in every
other variant) — not through the curtain's own ids. -/
def set_curtain_attribute_value (curtain_endpoint_id : Nat) (v : Nat) :
    UpdateRequest :=
  ⟨curtain_endpoint_id, CLUSTER_ID, ATTRIBUTE_ID, v⟩

/-- The condition of the curtain branch of `on_attribute_update`
(`unnamed/part_000` lines 92–93). -/
def curtain_match (curtain_endpoint_id endpoint_id cluster_id attribute_id :
    Nat) : Bool :=
  endpoint_id == curtain_endpoint_id &&
    cluster_id == CURTAIN_CLUSTER_ID && attribute_id == CURTAIN_ATTRIBUTE_ID

/-- `on_attribute_update` (`unnamed/part_000` lines 82–102): every
`PRE_UPDATE` is logged over serial; the curtain branch, when its triple
matches, prints the new state but drives no pin — the `digitalWrite` at
line 98 is commented out.  Serial output is not modeled; the pin-write
list is empty on every path. -/
def on_attribute_update (curtain_endpoint_id : Nat) (type : CallbackType)
    (endpoint_id cluster_id attribute_id : Nat) (val_u8 : Nat) :
    Nat × List PinWrite :=
  if type = CallbackType.PRE_UPDATE then
    if curtain_match curtain_endpoint_id endpoint_id cluster_id attribute_id
    then (ESP_OK, [])
    else (ESP_OK, [])
  else (ESP_OK, [])

end Curtain

/-! ## Claims -/

/-- C1: For every bound channel, when no concurrent remote write
interleaves, the read-invert-commit the loop performs (`toggle`) followed
by a read of the current value yields the logical negation of the value
read immediately before — in the single-light variant and in both channels
of the two-endpoint variant. -/
theorem toggle_then_read_negates (s : Light.LightState)
    (s2 : TwoEnd.PluginState) (r : TwoEnd.AttrRef) :
    Light.get_onoff_attribute_value (Light.toggle s) =
      !Light.get_onoff_attribute_value s ∧
    TwoEnd.get_onoff_attribute_value r (TwoEnd.toggle r s2) =
      !TwoEnd.get_onoff_attribute_value r s2 := by
  refine ⟨rfl, ?_⟩
  cases r <;> rfl

/-- C8: the loop's read-modify-write is unguarded: in the interleaving
where a remote commit of `r` lands between the loop's read and its write,
the final attribute value is the negation of the pre-race value and is
independent of `r` — the remote write is silently erased. -/
theorem toggle_remote_race_lost_update (r : Bool) (s : Light.LightState) :
    (Light.toggle_raced r s).onoff = !s.onoff ∧
    Light.toggle_raced r s = Light.toggle_raced true s := by
  constructor <;> rfl

/-- C9: the local poller path never drives a GPIO pin: a `loop` iteration
emits no pin write, leaves every LED level unchanged, and mutates only the
attribute store and `last_toggle` — in both the single-light and the
two-endpoint variant. -/
theorem loop_writes_no_pin_frame (t : Nat) (b b1 b2 : Bool)
    (s : Light.LightState) (s2 : TwoEnd.PluginState) :
    (Light.loop t b s).2 = [] ∧
    (Light.loop t b s).1.led = s.led ∧
    (TwoEnd.loop t b1 b2 s2).2 = [] ∧
    (TwoEnd.loop t b1 b2 s2).1.led_1 = s2.led_1 ∧
    (TwoEnd.loop t b1 b2 s2).1.led_2 = s2.led_2 := by
  unfold Light.loop TwoEnd.loop
  refine ⟨?_, ?_, ?_, ?_, ?_⟩ <;>
    split_ifs <;>
    simp_all [Light.toggle, Light.set_onoff_attribute_value,
      Light.get_onoff_attribute_value, TwoEnd.toggle,
      TwoEnd.set_onoff_attribute_value, TwoEnd.get_onoff_attribute_value]

/-- C3: the curtain variant's setter commits through the OnOff ids
(`CLUSTER_ID` / `ATTRIBUTE_ID`), not the curtain's own
(`CURTAIN_CLUSTER_ID` / `CURTAIN_ATTRIBUTE_ID`), so the triple a local
button toggle writes never matches the curtain branch of
`on_attribute_update`. -/
theorem curtain_setter_uses_onoff_ids (cep v : Nat) :
    (Curtain.set_curtain_attribute_value cep v).cluster_id = CLUSTER_ID ∧
    (Curtain.set_curtain_attribute_value cep v).attribute_id = ATTRIBUTE_ID ∧
    CLUSTER_ID ≠ CURTAIN_CLUSTER_ID ∧
    ATTRIBUTE_ID ≠ CURTAIN_ATTRIBUTE_ID ∧
    Curtain.curtain_match cep
      (Curtain.set_curtain_attribute_value cep v).endpoint_id
      (Curtain.set_curtain_attribute_value cep v).cluster_id
      (Curtain.set_curtain_attribute_value cep v).attribute_id = false := by
  refine ⟨rfl, rfl, by decide, by decide, ?_⟩
  simp [Curtain.curtain_match, Curtain.set_curtain_attribute_value,
    CLUSTER_ID, CURTAIN_CLUSTER_ID]

/-- C10: `last_toggle` is zero-initialized and the gate requires
`millis() - last_toggle` to strictly exceed `DEBOUNCE_DELAY`, so for the
first `DEBOUNCE_DELAY` milliseconds after boot no button press fires a
toggle in either variant — the poller effectively starts suppressed. -/
theorem boot_first_window_suppressed (t : Nat) (b b1 b2 : Bool)
    (h : t ≤ DEBOUNCE_DELAY) :
    Light.fires t b Light.boot = false ∧
    (Light.loop t b Light.boot).1 = Light.boot ∧
    (TwoEnd.loop t b1 b2 TwoEnd.boot).1 = TwoEnd.boot := by
  have hm : millisSub t 0 = t :=
    millisSub_of_le (Nat.zero_le t)
      (lt_of_le_of_lt h (by unfold DEBOUNCE_DELAY UINT32_MOD; omega))
  have hgate : ¬ millisSub t Light.boot.last_toggle > DEBOUNCE_DELAY := by
    simp only [Light.boot, hm]
    omega
  have hgate2 : ¬ millisSub t TwoEnd.boot.last_toggle > DEBOUNCE_DELAY := by
    simp only [TwoEnd.boot, hm]
    omega
  refine ⟨?_, ?_, ?_⟩
  · simp [Light.fires, Light.boot, hm]
    omega
  · simp [Light.loop, hgate]
  · simp [TwoEnd.loop, hgate2]

/-- Witness for C10 at `t = 500` with both buttons held. -/
theorem boot_first_window_suppressed_witness :
    (500 ≤ DEBOUNCE_DELAY) ∧
    (Light.fires 500 false Light.boot = false ∧
      (Light.loop 500 false Light.boot).1 = Light.boot ∧
      (TwoEnd.loop 500 false false TwoEnd.boot).1 = TwoEnd.boot) :=
  ⟨by decide, boot_first_window_suppressed 500 false false false (by decide)⟩

/-- C2: the two-endpoint variant keeps one shared `last_toggle`: in a
qualifying poll with both buttons active, both channels toggle; but after
a trigger recorded by button 2 (pin `D8`), a press of button 1 (pin `D9`)
arriving within `DEBOUNCE_DELAY` milliseconds fires no toggle for either
channel — the whole state is unchanged by that poll. -/
theorem twoEnd_shared_debounce_coupling (t t' : Nat)
    (s : TwoEnd.PluginState) (b1 b2 : Bool)
    (hq : millisSub t s.last_toggle > DEBOUNCE_DELAY)
    (hw : millisSub t' t ≤ DEBOUNCE_DELAY) :
    ((TwoEnd.loop t false false s).1.onoff_1 = !s.onoff_1 ∧
      (TwoEnd.loop t false false s).1.onoff_2 = !s.onoff_2) ∧
    (TwoEnd.loop t' b1 b2 (TwoEnd.loop t true false s).1).1 =
      (TwoEnd.loop t true false s).1 := by
  have hbtn2 : (TwoEnd.loop t true false s).1 =
      { s with onoff_2 := !s.onoff_2, last_toggle := t } := by
    simp [TwoEnd.loop, hq, TwoEnd.toggle, TwoEnd.set_onoff_attribute_value,
      TwoEnd.get_onoff_attribute_value]
  refine ⟨⟨?_, ?_⟩, ?_⟩
  · simp [TwoEnd.loop, hq, TwoEnd.toggle, TwoEnd.set_onoff_attribute_value,
      TwoEnd.get_onoff_attribute_value]
  · simp [TwoEnd.loop, hq, TwoEnd.toggle, TwoEnd.set_onoff_attribute_value,
      TwoEnd.get_onoff_attribute_value]
  · rw [hbtn2]
    have hgate : ¬ millisSub t'
        (TwoEnd.PluginState.last_toggle
          { s with onoff_2 := !s.onoff_2, last_toggle := t }) >
        DEBOUNCE_DELAY := by
      simpa using Nat.not_lt.mpr hw
    simp [TwoEnd.loop, hgate]

/-- Witness for C2: boot state, both buttons pressed at `t = 1000`
(qualifying), then a button-1 press at `t' = 1300`, 300 ms after the
trigger button 2 recorded. -/
theorem twoEnd_shared_debounce_coupling_witness :
    (millisSub 1000 TwoEnd.boot.last_toggle > DEBOUNCE_DELAY ∧
      millisSub 1300 1000 ≤ DEBOUNCE_DELAY) ∧
    (((TwoEnd.loop 1000 false false TwoEnd.boot).1.onoff_1 =
        !TwoEnd.boot.onoff_1 ∧
      (TwoEnd.loop 1000 false false TwoEnd.boot).1.onoff_2 =
        !TwoEnd.boot.onoff_2) ∧
     (TwoEnd.loop 1300 false true
        (TwoEnd.loop 1000 true false TwoEnd.boot).1).1 =
       (TwoEnd.loop 1000 true false TwoEnd.boot).1) :=
  ⟨⟨by decide, by decide⟩,
    twoEnd_shared_debounce_coupling 1000 1300 TwoEnd.boot false true
      (by decide) (by decide)⟩

/-- C5: an attribute-update callback invocation whose triple matches no
bound channel returns `ESP_OK` and performs no pin write, in both the
single-light and the two-endpoint variant: a routing miss is a no-op. -/
theorem routing_miss_is_noop (lep ep1 ep2 : Nat) (ty : CallbackType)
    (e c a : Nat) (v : Bool)
    (hL : ¬(ty = CallbackType.PRE_UPDATE ∧ e = lep ∧ c = CLUSTER_ID ∧
      a = ATTRIBUTE_ID))
    (hT : ¬(ty = CallbackType.PRE_UPDATE ∧ c = CLUSTER_ID ∧
      a = ATTRIBUTE_ID ∧ (e = ep1 ∨ e = ep2))) :
    Light.on_attribute_update lep ty e c a v = (ESP_OK, []) ∧
    TwoEnd.on_attribute_update ep1 ep2 ty e c a v = (ESP_OK, []) := by
  constructor
  · simp only [Light.on_attribute_update, if_neg hL]
  · simp only [TwoEnd.on_attribute_update]
    split_ifs <;> first | rfl | (exfalso; tauto)

/-- Witness for C5: a `POST_UPDATE` notification with otherwise matching
ids misses every channel in both variants. -/
theorem routing_miss_is_noop_witness :
    ((¬(CallbackType.POST_UPDATE = CallbackType.PRE_UPDATE ∧ (1 : Nat) = 1 ∧
        CLUSTER_ID = CLUSTER_ID ∧ ATTRIBUTE_ID = ATTRIBUTE_ID)) ∧
     (¬(CallbackType.POST_UPDATE = CallbackType.PRE_UPDATE ∧
        CLUSTER_ID = CLUSTER_ID ∧ ATTRIBUTE_ID = ATTRIBUTE_ID ∧
        ((1 : Nat) = 1 ∨ (1 : Nat) = 2)))) ∧
    (Light.on_attribute_update 1 CallbackType.POST_UPDATE 1 CLUSTER_ID
        ATTRIBUTE_ID true = (ESP_OK, []) ∧
      TwoEnd.on_attribute_update 1 2 CallbackType.POST_UPDATE 1 CLUSTER_ID
        ATTRIBUTE_ID true = (ESP_OK, [])) :=
  ⟨⟨by decide, by decide⟩,
    routing_miss_is_noop 1 1 2 CallbackType.POST_UPDATE 1 CLUSTER_ID
      ATTRIBUTE_ID true (by decide) (by decide)⟩

/-- C4, counterexample: in the curtain variant (`unnamed/part_000`) the
callback's matched branch performs no pin write at all — its
`digitalWrite` is commented out — so a matching `PRE_UPDATE` does not
cause exactly one pin write. -/
theorem curtain_matched_update_writes_no_pin :
    Curtain.curtain_match 1 1 CURTAIN_CLUSTER_ID CURTAIN_ATTRIBUTE_ID =
      true ∧
    (Curtain.on_attribute_update 1 CallbackType.PRE_UPDATE 1
        CURTAIN_CLUSTER_ID CURTAIN_ATTRIBUTE_ID 1).2.length ≠ 1 := by
  constructor <;> decide

/-- C4 as amended: in the light and two-endpoint variants a matching
`PRE_UPDATE` performs exactly one pin write, of the value's boolean
projection, to the matched channel's LED pin; in the curtain variant the
matched branch performs no pin write. -/
theorem matched_update_single_pin_write (lep ep1 ep2 cep e : Nat)
    (v : Bool) (u : Nat) (he : e = ep1 ∨ e = ep2) :
    (Light.on_attribute_update lep CallbackType.PRE_UPDATE lep CLUSTER_ID
        ATTRIBUTE_ID v).2 = [⟨Light.LED_PIN, v⟩] ∧
    (TwoEnd.on_attribute_update ep1 ep2 CallbackType.PRE_UPDATE e
        CLUSTER_ID ATTRIBUTE_ID v).2 =
      [⟨if e = ep1 then TwoEnd.LED_PIN_1 else TwoEnd.LED_PIN_2, v⟩] ∧
    (Curtain.on_attribute_update cep CallbackType.PRE_UPDATE cep
        CURTAIN_CLUSTER_ID CURTAIN_ATTRIBUTE_ID u).2 = [] := by
  refine ⟨by simp [Light.on_attribute_update], ?_, ?_⟩
  · by_cases h1 : e = ep1
    · simp [TwoEnd.on_attribute_update, h1]
    · have h2 : e = ep2 := he.resolve_left h1
      simp [TwoEnd.on_attribute_update, if_neg h1, if_pos h2]
  · simp only [Curtain.on_attribute_update]
    split_ifs <;> rfl

/-- Witness for the amended C4, on endpoint 2 of the two-endpoint
variant. -/
theorem matched_update_single_pin_write_witness :
    ((2 : Nat) = 1 ∨ (2 : Nat) = 2) ∧
    ((Light.on_attribute_update 1 CallbackType.PRE_UPDATE 1 CLUSTER_ID
        ATTRIBUTE_ID true).2 = [⟨Light.LED_PIN, true⟩] ∧
     (TwoEnd.on_attribute_update 1 2 CallbackType.PRE_UPDATE 2 CLUSTER_ID
        ATTRIBUTE_ID true).2 =
       [⟨if (2 : Nat) = 1 then TwoEnd.LED_PIN_1 else TwoEnd.LED_PIN_2,
         true⟩] ∧
     (Curtain.on_attribute_update 3 CallbackType.PRE_UPDATE 3
        CURTAIN_CLUSTER_ID CURTAIN_ATTRIBUTE_ID 1).2 = []) :=
  ⟨by decide,
    matched_update_single_pin_write 1 1 2 3 2 true 1 (by decide)⟩

set_option maxRecDepth 100000 in
/-- C6, counterexample: a press held 600 ms — longer than the 500 ms
debounce window, shorter than twice the window — under millisecond
polling from boot causes TWO toggles (one when the press is first seen,
one re-fire once the window has elapsed), not exactly one. -/
theorem press_between_windows_two_toggles :
    DEBOUNCE_DELAY < 600 ∧ 600 < 2 * DEBOUNCE_DELAY ∧
    Light.countToggles (Light.densePolls 1000 600 601) Light.boot = 2 := by
  refine ⟨by decide, by decide, by decide⟩

set_option maxRecDepth 400000 in
/-- C6 as amended: after a fire, the gate stays closed for exactly the
window and then re-arms regardless of the pin level, so a still-held
button re-fires on the next poll past the window (level-triggered
repeat-fire): a press held longer than the window but shorter than twice
the window causes two toggles, not one, while a press held for `k` whole
windows under millisecond polling causes `k` toggles (instances
`k = 1, 2, 3`). -/
theorem debounce_refire_policy (t t' : Nat) (s : Light.LightState)
    (h1 : millisSub t s.last_toggle > DEBOUNCE_DELAY)
    (h2 : millisSub t' t > DEBOUNCE_DELAY) :
    Light.fires t false s = true ∧
    Light.fires t' false (Light.loop t false s).1 = true ∧
    Light.countToggles (Light.densePolls 1000 500 501) Light.boot = 1 ∧
    Light.countToggles (Light.densePolls 1000 1000 1001) Light.boot = 2 ∧
    Light.countToggles (Light.densePolls 1000 1500 1501) Light.boot = 3 := by
  have hl : (Light.loop t false s).1.last_toggle = t := by
    simp [Light.loop, h1, Light.toggle, Light.set_onoff_attribute_value]
  refine ⟨?_, ?_, by decide, by decide, by decide⟩
  · simp [Light.fires, h1]
  · simp [Light.fires, hl, h2]

/-- Witness for the amended C6: fire at `t = 1000` from boot, re-fire at
`t' = 1502` with the button never released. -/
theorem debounce_refire_policy_witness :
    (millisSub 1000 Light.boot.last_toggle > DEBOUNCE_DELAY ∧
      millisSub 1502 1000 > DEBOUNCE_DELAY) ∧
    (Light.fires 1000 false Light.boot = true ∧
      Light.fires 1502 false (Light.loop 1000 false Light.boot).1 = true ∧
      Light.countToggles (Light.densePolls 1000 500 501) Light.boot = 1 ∧
      Light.countToggles (Light.densePolls 1000 1000 1001) Light.boot = 2 ∧
      Light.countToggles (Light.densePolls 1000 1500 1501) Light.boot = 3) :=
  ⟨⟨by decide, by decide⟩,
    debounce_refire_policy 1000 1502 Light.boot (by decide) (by decide)⟩

/-- Ordering of toggle events fired along a trace: two events are either
strictly more than a debounce window apart, or they are the channel-1 /
channel-2 pair fired by one and the same qualifying poll. -/
def TwoEnd.evR (a b : Nat × Nat) : Prop :=
  a.1 + DEBOUNCE_DELAY < b.1 ∨ (a.1 = b.1 ∧ a.2 = 1 ∧ b.2 = 2)

theorem TwoEnd.evR_trans : Transitive TwoEnd.evR := by
  intro a b c hab hbc
  rcases hab with h1 | ⟨ha, ha1, ha2⟩ <;>
    rcases hbc with g1 | ⟨hb, hb1, hb2⟩ <;>
    exact Or.inl (by omega)

/-- Master invariant of the two-endpoint poll loop: along any trace with
nondecreasing, non-wrapping times whose times do not precede the state's
`last_toggle`, every fired event lies strictly more than a debounce window
after the starting `last_toggle`, and consecutive events satisfy
`TwoEnd.evR`. -/
theorem TwoEnd.events_spec (trace : List (Nat × Bool × Bool))
    (s : TwoEnd.PluginState)
    (hmono : List.Pairwise (fun a b => a.1 ≤ b.1) trace)
    (hbound : ∀ e ∈ trace, e.1 < UINT32_MOD)
    (hslt : s.last_toggle < UINT32_MOD)
    (hle : ∀ e ∈ trace, s.last_toggle ≤ e.1) :
    (∀ ev ∈ TwoEnd.events trace s,
      s.last_toggle + DEBOUNCE_DELAY < ev.1) ∧
    List.Chain' TwoEnd.evR (TwoEnd.events trace s) := by
  induction trace generalizing s with
  | nil => simp [TwoEnd.events]
  | cons head tr ih =>
    obtain ⟨t, b1, b2⟩ := head
    rw [List.pairwise_cons] at hmono
    obtain ⟨hhead, hmono'⟩ := hmono
    have ht_lt : t < UINT32_MOD := hbound _ (List.mem_cons_self _ _)
    have hst : s.last_toggle ≤ t := hle _ (List.mem_cons_self _ _)
    have hbound' : ∀ e ∈ tr, e.1 < UINT32_MOD := fun e he =>
      hbound e (List.mem_cons_of_mem _ he)
    by_cases hg : millisSub t s.last_toggle > DEBOUNCE_DELAY
    · have hgap : s.last_toggle + DEBOUNCE_DELAY < t := by
        rw [millisSub_of_le hst ht_lt] at hg
        omega
      cases b1 <;> cases b2
      · -- both buttons pressed: both channels fire at `t`
        have hf1 : TwoEnd.fires1 t false s = true := by
          simp [TwoEnd.fires1, hg]
        have hf2 : TwoEnd.fires2 t false s = true := by
          simp [TwoEnd.fires2, hg]
        have hlast : (TwoEnd.loop t false false s).1.last_toggle = t := by
          simp [TwoEnd.loop, hg, TwoEnd.toggle,
            TwoEnd.set_onoff_attribute_value,
            TwoEnd.get_onoff_attribute_value]
        obtain ⟨ih1, ih2⟩ := ih (TwoEnd.loop t false false s).1 hmono'
          hbound' (by rw [hlast]; exact ht_lt)
          (fun e he => by rw [hlast]; exact hhead e he)
        have hev : TwoEnd.events ((t, false, false) :: tr) s =
            (t, 1) :: (t, 2) ::
              TwoEnd.events tr (TwoEnd.loop t false false s).1 := by
          simp [TwoEnd.events, hf1, hf2]
        rw [hev]
        constructor
        · intro ev hmem
          simp only [List.mem_cons] at hmem
          rcases hmem with rfl | rfl | h
          · exact hgap
          · exact hgap
          · have := ih1 ev h
            rw [hlast] at this
            omega
        · rw [List.chain'_cons]
          refine ⟨Or.inr ⟨rfl, rfl, rfl⟩, ?_⟩
          rw [List.chain'_cons']
          refine ⟨?_, ih2⟩
          intro y hy
          have hmem := List.mem_of_mem_head? hy
          have := ih1 y hmem
          rw [hlast] at this
          exact Or.inl this
      · -- only button 1 pressed
        have hf1 : TwoEnd.fires1 t false s = true := by
          simp [TwoEnd.fires1, hg]
        have hf2 : TwoEnd.fires2 t true s = false := by
          simp [TwoEnd.fires2]
        have hlast : (TwoEnd.loop t false true s).1.last_toggle = t := by
          simp [TwoEnd.loop, hg, TwoEnd.toggle,
            TwoEnd.set_onoff_attribute_value,
            TwoEnd.get_onoff_attribute_value]
        obtain ⟨ih1, ih2⟩ := ih (TwoEnd.loop t false true s).1 hmono'
          hbound' (by rw [hlast]; exact ht_lt)
          (fun e he => by rw [hlast]; exact hhead e he)
        have hev : TwoEnd.events ((t, false, true) :: tr) s =
            (t, 1) :: TwoEnd.events tr (TwoEnd.loop t false true s).1 := by
          simp [TwoEnd.events, hf1, hf2]
        rw [hev]
        constructor
        · intro ev hmem
          simp only [List.mem_cons] at hmem
          rcases hmem with rfl | h
          · exact hgap
          · have := ih1 ev h
            rw [hlast] at this
            omega
        · rw [List.chain'_cons']
          refine ⟨?_, ih2⟩
          intro y hy
          have hmem := List.mem_of_mem_head? hy
          have := ih1 y hmem
          rw [hlast] at this
          exact Or.inl this
      · -- only button 2 pressed
        have hf1 : TwoEnd.fires1 t true s = false := by
          simp [TwoEnd.fires1]
        have hf2 : TwoEnd.fires2 t false s = true := by
          simp [TwoEnd.fires2, hg]
        have hlast : (TwoEnd.loop t true false s).1.last_toggle = t := by
          simp [TwoEnd.loop, hg, TwoEnd.toggle,
            TwoEnd.set_onoff_attribute_value,
            TwoEnd.get_onoff_attribute_value]
        obtain ⟨ih1, ih2⟩ := ih (TwoEnd.loop t true false s).1 hmono'
          hbound' (by rw [hlast]; exact ht_lt)
          (fun e he => by rw [hlast]; exact hhead e he)
        have hev : TwoEnd.events ((t, true, false) :: tr) s =
            (t, 2) :: TwoEnd.events tr (TwoEnd.loop t true false s).1 := by
          simp [TwoEnd.events, hf1, hf2]
        rw [hev]
        constructor
        · intro ev hmem
          simp only [List.mem_cons] at hmem
          rcases hmem with rfl | h
          · exact hgap
          · have := ih1 ev h
            rw [hlast] at this
            omega
        · rw [List.chain'_cons']
          refine ⟨?_, ih2⟩
          intro y hy
          have hmem := List.mem_of_mem_head? hy
          have := ih1 y hmem
          rw [hlast] at this
          exact Or.inl this
      · -- neither button pressed: nothing fires, state unchanged
        have hf1 : TwoEnd.fires1 t true s = false := by
          simp [TwoEnd.fires1]
        have hf2 : TwoEnd.fires2 t true s = false := by
          simp [TwoEnd.fires2]
        have hloop : (TwoEnd.loop t true true s).1 = s := by
          simp [TwoEnd.loop, hg]
        have := ih s hmono' hbound' hslt
          (fun e he => hle e (List.mem_cons_of_mem _ he))
        simpa [TwoEnd.events, hf1, hf2, hloop] using this
    · -- debounce gate closed: nothing fires, state unchanged
      have hf1 : TwoEnd.fires1 t b1 s = false := by
        simp [TwoEnd.fires1, hg]
      have hf2 : TwoEnd.fires2 t b2 s = false := by
        simp [TwoEnd.fires2, hg]
      have hloop : (TwoEnd.loop t b1 b2 s).1 = s := by
        simp [TwoEnd.loop, hg]
      have := ih s hmono' hbound' hslt
        (fun e he => hle e (List.mem_cons_of_mem _ he))
      simpa [TwoEnd.events, hf1, hf2, hloop] using this

/-- C7: from boot, along any execution of the two-endpoint poll loop with
nondecreasing, non-wrapping `millis()` samples, no channel fires a toggle
within `DEBOUNCE_DELAY` milliseconds of its own most recent trigger: the
timestamps of consecutive toggles of the same channel always differ by
strictly more than the debounce window. -/
theorem twoEnd_no_retrigger_within_window
    (trace : List (Nat × Bool × Bool)) (ch : Nat)
    (hmono : List.Pairwise (fun a b => a.1 ≤ b.1) trace)
    (hbound : ∀ e ∈ trace, e.1 < UINT32_MOD) :
    List.Chain' (fun a b => a.1 + DEBOUNCE_DELAY < b.1)
      ((TwoEnd.events trace TwoEnd.boot).filter (fun e => e.2 == ch)) := by
  obtain ⟨-, hchain⟩ := TwoEnd.events_spec trace TwoEnd.boot hmono hbound
    (by decide) (fun e _ => Nat.zero_le _)
  haveI : IsTrans (Nat × Nat) TwoEnd.evR :=
    ⟨fun a b c hab hbc => TwoEnd.evR_trans hab hbc⟩
  rw [List.chain'_iff_pairwise] at hchain
  have hfilt : List.Pairwise TwoEnd.evR
      ((TwoEnd.events trace TwoEnd.boot).filter (fun e => e.2 == ch)) :=
    hchain.sublist (List.filter_sublist _)
  refine List.Pairwise.chain' ?_
  refine List.Pairwise.imp_of_mem ?_ hfilt
  intro a b ha hb hab
  have ha' := (List.mem_filter.mp ha).2
  have hb' := (List.mem_filter.mp hb).2
  simp only [Nat.beq_eq_true_eq] at ha' hb'
  rcases hab with h | ⟨h1, h2, h3⟩
  · exact h
  · omega

/-- Witness for C7: both buttons held through polls at 600, 700 and
1200 ms; channel 1's toggles land at 600 and 1200 ms, more than one
window apart. -/
theorem twoEnd_no_retrigger_within_window_witness :
    (List.Pairwise (fun (a b : Nat × Bool × Bool) => a.1 ≤ b.1)
        [(600, false, false), (700, false, false), (1200, false, false)] ∧
      ∀ e ∈ ([(600, false, false), (700, false, false),
          (1200, false, false)] : List (Nat × Bool × Bool)),
        e.1 < UINT32_MOD) ∧
    List.Chain' (fun a b => a.1 + DEBOUNCE_DELAY < b.1)
      ((TwoEnd.events
          [(600, false, false), (700, false, false), (1200, false, false)]
          TwoEnd.boot).filter (fun e => e.2 == 1)) :=
  ⟨⟨by decide, by decide⟩,
    twoEnd_no_retrigger_within_window
      [(600, false, false), (700, false, false), (1200, false, false)] 1
      (by decide) (by decide)⟩
